import Mathlib

/-!
Verification of the `@polarisdev/mondial-relay` package.

This file gives a shallow embedding of the package's core logic and proves
properties of it:

* `src/browser/ParcelShopSelector/utils.ts` — `normalizeBrandId`,
  `validateDeliveryMode` (strings are modelled as `List Char`; JS `trim` and
  `padEnd` are modelled explicitly);
* `src/browser/ParcelShopSelector/index.tsx` — the `loadScripts` /
  `loadMRWidget` script bootstrap (modelled as an event-driven step machine
  whose events are the interleavable browser callbacks), the `initWidget`
  attach path, the effect re-entrancy guard (`widgetInitialized` ref) and the
  unmount cleanup;
* the `createShipment` request builder (schema validation, placeholder
  credential check, XML generation and HTTP dispatch are modelled as an
  explicit effect trace; the zod schema outcomes and the HTTP response are
  abstracted as parameters since they live in external modules).

The single-threaded browser event loop is modelled by running an arbitrary
list of events (call starts, script `onload` / `onerror` firings) through a
step function; each event's handler runs synchronously, exactly as in the
source.
-/

namespace MondialRelay

/- ----------------------------------------------------------------- -/
/- Strings-as-char-lists model of the pieces of JS `String` used by
   `utils.ts`: `trim` and `padEnd`.                                   -/
/- ----------------------------------------------------------------- -/

/-- Whitespace test used by the model of JS `String.prototype.trim`. -/
def isWs (c : Char) : Bool := c.isWhitespace

/-- Model of JS `trimStart`: drop leading whitespace. -/
def trimLeft : List Char → List Char
  | [] => []
  | c :: r => if isWs c then trimLeft r else c :: r

/-- Model of JS `trimEnd`: drop trailing whitespace. -/
def trimRight : List Char → List Char
  | [] => []
  | c :: r =>
    if trimRight r = [] then (if isWs c then [] else [c]) else c :: trimRight r

/-- Model of JS `String.prototype.trim`. -/
def jsTrim (s : List Char) : List Char := trimRight (trimLeft s)

/-- Model of JS `padEnd(n, c)` for a single-character pad string:
append copies of `c` until the length reaches `n` (unchanged when the
string is already at least `n` long). -/
def padEnd (s : List Char) (n : Nat) (c : Char) : List Char :=
  s ++ List.replicate (n - s.length) c

/-- The three `throw new Error(...)` sites of `normalizeBrandId` in
`src/browser/ParcelShopSelector/utils.ts`:
* `required`  — `if (!brand)`: "brandIdAPI is required and must be a string"
  (reached exactly when the input is the empty string);
* `tooLong n` — "brandIdAPI must be at most 8 characters (got n)";
* `empty`     — `trimmed.length === 0`: "brandIdAPI cannot be empty". -/
inductive BrandIdError
  | required
  | tooLong (n : Nat)
  | empty
deriving DecidableEq

/-- Both throw sites whose cause is a blank identifier (`required` fires on
the literally-empty string, `empty` on whitespace-only input). -/
def BrandIdError.isEmptyIdentifier : BrandIdError → Bool
  | BrandIdError.required => true
  | BrandIdError.empty => true
  | BrandIdError.tooLong _ => false

/-- Model of `normalizeBrandId` from `utils.ts`.  JS `!brand` is true for a
string exactly when it is empty. -/
def normalizeBrandId (brand : List Char) : Except BrandIdError (List Char) :=
  if brand = [] then Except.error BrandIdError.required
  else if 8 < (jsTrim brand).length then
    Except.error (BrandIdError.tooLong (jsTrim brand).length)
  else if (jsTrim brand).length = 0 then Except.error BrandIdError.empty
  else Except.ok (padEnd (jsTrim brand) 8 ' ')

/-- The fixed delivery-mode enum of `validateDeliveryMode`. -/
def validModes : List String := ["LCC", "HOM", "24R", "24L", "XOH"]

/-- Model of `validateDeliveryMode` from `utils.ts`.  The function never
throws; its only observable effect is the `console.error` warning, so it is
modelled as returning whether that warning is emitted.  JS `mode &&` is
false for `undefined` (`none`) and for the empty string. -/
def validateDeliveryMode (mode : Option String) : Bool :=
  match mode with
  | none => false
  | some m => !(m = "") && !(validModes.contains m)

/- ----------------------------------------------------------------- -/
/- Event-driven model of `loadScripts` / `loadMRWidget`.              -/
/- ----------------------------------------------------------------- -/

/-- The two remote resources injected by `loadScripts`. -/
inductive ScriptKind
  | jquery
  | mrwidget
deriving DecidableEq

/-- Shared browser state seen by every `loadScripts` call, plus the
bookkeeping of the calls themselves.

* `scriptsLoaded` — `window.__MR_WIDGET_SCRIPTS_LOADED__`;
* `jqueryPresent` — `window.$` is defined (set when a jQuery script
  element finishes loading and executes);
* `appended` — chronological log of `document.body.appendChild(script)`
  side effects, tagged with the calling mount's id;
* `pending` — appended script elements whose `onload`/`onerror` handler has
  not fired yet (loads in flight);
* `resolved` / `rejected` — calls whose promise has settled. -/
structure LoaderState where
  scriptsLoaded : Bool
  jqueryPresent : Bool
  appended : List (Nat × ScriptKind)
  pending : List (Nat × ScriptKind)
  resolved : List Nat
  rejected : List Nat
deriving DecidableEq

/-- Process start: no flags set, nothing appended, no calls settled. -/
def initLoader : LoaderState :=
  { scriptsLoaded := false, jqueryPresent := false, appended := [], pending := [],
    resolved := [], rejected := [] }

/-- Call `i`'s promise resolves. -/
def resolveCall (i : Nat) (s : LoaderState) : LoaderState :=
  { s with resolved := s.resolved ++ [i] }

/-- Call `i`'s promise rejects. -/
def rejectCall (i : Nat) (s : LoaderState) : LoaderState :=
  { s with rejected := s.rejected ++ [i] }

/-- `document.createElement('script'); …; document.body.appendChild(…)`
performed by call `i` for resource `k`: the load side effect. -/
def appendScript (i : Nat) (k : ScriptKind) (s : LoaderState) : LoaderState :=
  { s with appended := s.appended ++ [(i, k)], pending := s.pending ++ [(i, k)] }

/-- Body of `loadMRWidget(resolve, reject)` run for call `i`: if the global
flag is already set, resolve; otherwise append the Mondial Relay widget
script and wait for its handler. -/
def loadMRWidget (i : Nat) (s : LoaderState) : LoaderState :=
  if s.scriptsLoaded then resolveCall i s
  else appendScript i ScriptKind.mrwidget s

/-- Synchronous body of one `loadScripts()` call by mount `i` (the promise
executor runs synchronously at call time). -/
def loadScriptsCall (i : Nat) (s : LoaderState) : LoaderState :=
  if s.scriptsLoaded && s.jqueryPresent then resolveCall i s
  else if s.jqueryPresent then loadMRWidget i s
  else appendScript i ScriptKind.jquery s

/-- Interleavable events of the browser event loop relevant to the loader:
a mount starting its `loadScripts()` call, and a pending script element's
`onload` / `onerror` handler firing. -/
inductive LoaderEv
  | start (i : Nat)
  | load (i : Nat) (k : ScriptKind)
  | fail (i : Nat) (k : ScriptKind)
deriving DecidableEq

/-- A pending script's `onload` fires.  A jQuery script that has loaded has
also executed, so `window.$` becomes defined before the handler body runs;
the handler then runs `loadMRWidget`.  The widget script's handler sets the
global flag and resolves. -/
def fireLoad (i : Nat) (k : ScriptKind) (s : LoaderState) : LoaderState :=
  if (i, k) ∈ s.pending then
    match k with
    | ScriptKind.jquery =>
        loadMRWidget i
          { s with pending := s.pending.erase (i, k), jqueryPresent := true }
    | ScriptKind.mrwidget =>
        resolveCall i
          { s with pending := s.pending.erase (i, k), scriptsLoaded := true }
  else s

/-- A pending script's `onerror` fires: the owning call rejects. -/
def fireFail (i : Nat) (k : ScriptKind) (s : LoaderState) : LoaderState :=
  if (i, k) ∈ s.pending then
    rejectCall i { s with pending := s.pending.erase (i, k) }
  else s

/-- One event-loop step. -/
def loaderStep (s : LoaderState) : LoaderEv → LoaderState
  | LoaderEv.start i => loadScriptsCall i s
  | LoaderEv.load i k => fireLoad i k s
  | LoaderEv.fail i k => fireFail i k s

/-- Run a whole schedule of events. -/
def runLoader (s : LoaderState) : List LoaderEv → LoaderState
  | [] => s
  | e :: es => runLoader (loaderStep s e) es

/-- `n` mounts all start their `loadScripts()` calls before any resource
has finished loading. -/
def startEvents (n : Nat) : List LoaderEv := (List.range n).map LoaderEv.start

/-- One jQuery script element per caller, in call order. -/
def jqueryAppends (n : Nat) : List (Nat × ScriptKind) :=
  (List.range n).map (fun i => (i, ScriptKind.jquery))

/-- Whether the Mondial Relay widget script has been appended at all. -/
def mrAppended (s : LoaderState) : Bool :=
  s.appended.any (fun e => decide (e.2 = ScriptKind.mrwidget))

/-- Two mounts start before any load completes, then every script load
succeeds: a fully successful interleaving. -/
def c1Trace : List LoaderEv :=
  [LoaderEv.start 0, LoaderEv.start 1,
   LoaderEv.load 0 ScriptKind.jquery, LoaderEv.load 1 ScriptKind.jquery,
   LoaderEv.load 0 ScriptKind.mrwidget, LoaderEv.load 1 ScriptKind.mrwidget]

/-- Two mounts start, then the first mount's jQuery script finishes. -/
def c7SimTrace : List LoaderEv :=
  [LoaderEv.start 0, LoaderEv.start 1, LoaderEv.load 0 ScriptKind.jquery]

/- ----------------------------------------------------------------- -/
/- Model of the component's attach path, re-entrancy guard and
   unmount cleanup (`index.tsx`).                                     -/
/- ----------------------------------------------------------------- -/

/-- Browser-global state seen by `initWidget` and the unmount cleanup.

* `scriptsLoaded` — `window.__MR_WIDGET_SCRIPTS_LOADED__`;
* `widgetAttachedFlag` — `window.__MR_WIDGET_INITIALIZED__`;
* `jquery` — `window.$` exists and is callable;
* `zonePresent` — `document.getElementById('Zone_Widget')` is non-null;
* `zoneContent` — the zone's `innerHTML`;
* `zoneOwner` — provenance ghost: the mount session whose attach call last
  wrote the zone's content (`none` when the zone is empty / cleared).
  The ghost never influences any operation, mirroring that the source code
  keeps no ownership information. -/
structure DomWindow where
  scriptsLoaded : Bool
  widgetAttachedFlag : Bool
  jquery : Bool
  zonePresent : Bool
  zoneContent : String
  zoneOwner : Option Nat
deriving DecidableEq

/-- Per-mount session state of the component:
the `widgetInitialized` ref, the `isReady` / `error` React state, and a
ghost counter of how many times the `initializeWidget` effect chain was
begun for this session. -/
structure MountSession where
  widgetInitialized : Bool
  isReady : Bool
  error : Option String
  chainStarts : Nat
deriving DecidableEq

/-- Props of `ParcelShopSelector` that reach `initWidget`. -/
structure WidgetProps where
  brandIdAPI : List Char
  deliveryMode : String
  defaultCountry : String
  defaultPostcode : String
  allowedCountries : String
  nbResults : Nat
  weight : Option Nat
deriving DecidableEq

/-- The configuration object passed to `MR_ParcelShopPicker` (the selection
callback is omitted: it is a function value irrelevant to the claims). -/
structure MRWidgetConfig where
  target : String
  brand : List Char
  country : String
  postCode : String
  colLivMod : String
  nbResults : String
  showResultsOnMap : Bool
  displayMapInfo : Bool
  allowedCountries : String
  css : String
  weight : Option Nat
deriving DecidableEq

/-- The literal argument object built inside `initWidget`:
`ColLivMod: deliveryMode` passes the prop through unchanged, and
`NbResults: String(nbResults)` stringifies the count. -/
def buildWidgetConfig (p : WidgetProps) (normalizedBrand : List Char) : MRWidgetConfig :=
  { target := "#Target_Widget", brand := normalizedBrand, country := p.defaultCountry,
    postCode := p.defaultPostcode, colLivMod := p.deliveryMode,
    nbResults := toString p.nbResults, showResultsOnMap := true, displayMapInfo := true,
    allowedCountries := p.allowedCountries, css := "1", weight := p.weight }

/-- Exceptions that can escape `initWidget`'s `try` block:
a `normalizeBrandId` throw, or a throw from the third-party
`MR_ParcelShopPicker` call (whose message is opaque). -/
inductive InitError
  | brand (e : BrandIdError)
  | picker (msg : String)
deriving DecidableEq

/-- Result of one `initWidget()` call as seen by its caller:
* `skippedNoJQuery` — the `!window.$` guard logged to the console and the
  function returned normally without attaching;
* `attached cfg` — the picker was invoked with `cfg` and the global flag set;
* `threw e` — an exception propagated out of `initWidget`. -/
inductive InitOutcome
  | skippedNoJQuery
  | attached (cfg : MRWidgetConfig)
  | threw (e : InitError)
deriving DecidableEq

/-- The `if (window.__MR_WIDGET_INITIALIZED__) { zone.innerHTML = '' }`
pre-clear at the top of `initWidget`. -/
def clearZoneIfAttached (w : DomWindow) : DomWindow :=
  if w.widgetAttachedFlag && w.zonePresent then
    { w with zoneContent := "", zoneOwner := none }
  else w

/-- Model of `initWidget` from `index.tsx`, run by mount session `sid`.
`pickerFailure` abstracts the opaque third-party call: `some m` means
`MR_ParcelShopPicker` throws with message `m`, `none` means it succeeds and
renders its markup into the zone (when the zone exists).  Note that
`window.__MR_WIDGET_INITIALIZED__` is assigned only after the picker call
returns, and the `catch` block rethrows. -/
def initWidget (sid : Nat) (p : WidgetProps) (pickerFailure : Option String)
    (w : DomWindow) : DomWindow × InitOutcome :=
  if !w.jquery then (w, InitOutcome.skippedNoJQuery)
  else
    match normalizeBrandId p.brandIdAPI with
    | Except.error e => (clearZoneIfAttached w, InitOutcome.threw (InitError.brand e))
    | Except.ok nb =>
      match pickerFailure with
      | some m => (clearZoneIfAttached w, InitOutcome.threw (InitError.picker m))
      | none =>
          ({ clearZoneIfAttached w with
              widgetAttachedFlag := true,
              zoneContent :=
                if w.zonePresent then "mr-widget-markup" else (clearZoneIfAttached w).zoneContent,
              zoneOwner := if w.zonePresent then some sid else (clearZoneIfAttached w).zoneOwner },
           InitOutcome.attached (buildWidgetConfig p nb))

/-- Messages of the modelled `InitError`s (the `tooLong` message's
interpolated count is elided). -/
def initErrorMessage : InitError → String
  | InitError.brand BrandIdError.required =>
      "[ParcelShopSelector] brandIdAPI is required and must be a string"
  | InitError.brand (BrandIdError.tooLong _) =>
      "[ParcelShopSelector] brandIdAPI must be at most 8 characters"
  | InitError.brand BrandIdError.empty => "[ParcelShopSelector] brandIdAPI cannot be empty"
  | InitError.picker m => m

/-- The tail of the `initializeWidget` async wrapper once `loadScripts`
has resolved: run `initWidget`; on a thrown error, `setError` moves the
session to its error phase and the `widgetInitialized` ref is reset; any
non-throwing outcome leaves the session untouched. -/
def initializeWidgetAfterLoad (sid : Nat) (p : WidgetProps) (pickerFailure : Option String)
    (w : DomWindow) (s : MountSession) : DomWindow × MountSession :=
  match initWidget sid p pickerFailure w with
  | (w1, InitOutcome.threw e) =>
      (w1, { s with error := some (initErrorMessage e), widgetInitialized := false })
  | (w1, _) => (w1, s)

/-- The synchronous guard prefix of the second `useEffect` body
(browser context assumed): skip when not ready, already initialized, or in
the error state; otherwise set the `widgetInitialized` ref and begin the
`initializeWidget` chain (counted by the ghost `chainStarts`). -/
def effectRun (s : MountSession) : MountSession :=
  if !s.isReady || s.widgetInitialized || s.error.isSome then s
  else { s with widgetInitialized := true, chainStarts := s.chainStarts + 1 }

/-- The session component of the effect's cleanup closure: the
`widgetInitialized` ref is reset.  React runs this cleanup before every
re-execution of the effect (dependency change) and on unmount. -/
def effectCleanup (s : MountSession) : MountSession :=
  { s with widgetInitialized := false }

/-- The full unmount cleanup from `index.tsx`, executed by session `sid`:
clear the zone's content whenever the zone element exists — without any
ownership check (`sid` is not consulted, mirroring the source) — and reset
the per-session ref.  Neither `window.__MR_WIDGET_SCRIPTS_LOADED__` nor
`window.__MR_WIDGET_INITIALIZED__` is touched. -/
def unmountCleanup (_sid : Nat) (w : DomWindow) (s : MountSession) :
    DomWindow × MountSession :=
  ( if w.zonePresent then { w with zoneContent := "", zoneOwner := none } else w,
    { s with widgetInitialized := false } )

/-- Default props of the component (`brandIdAPI = 'BDTEST'`, etc.). -/
def bdProps : WidgetProps :=
  { brandIdAPI := "BDTEST".toList, deliveryMode := "24R", defaultCountry := "FR",
    defaultPostcode := "59000", allowedCountries := "FR", nbResults := 7, weight := none }

/-- Props with an invalid delivery mode (not in the five-element enum). -/
def zzzProps : WidgetProps :=
  { bdProps with deliveryMode := "ZZZ" }

/-- A window in which scripts have loaded successfully and the empty zone
element is rendered: the normal pre-attach state. -/
def readyWindow : DomWindow :=
  { scriptsLoaded := true, widgetAttachedFlag := false, jquery := true,
    zonePresent := true, zoneContent := "", zoneOwner := none }

/-- A window in which the resources are marked loaded but `window.$` has
been removed (the defensive-guard scenario of the spec). -/
def noJqWindow : DomWindow :=
  { scriptsLoaded := true, widgetAttachedFlag := false, jquery := false,
    zonePresent := true, zoneContent := "", zoneOwner := none }

/-- A session that passed validation and has not started its chain. -/
def freshReadySession : MountSession :=
  { widgetInitialized := false, isReady := true, error := none, chainStarts := 0 }

/- ----------------------------------------------------------------- -/
/- Model of `createShipment` as an effect trace.                      -/
/- ----------------------------------------------------------------- -/

/-- Side effects performed by `createShipment`, in order of occurrence.
`httpPost` is the only network side effect (`axios.post`). -/
inductive ShipEffect
  | parseContext
  | parseShipment
  | parseOutput
  | generateXml
  | httpPost (url : String)
deriving DecidableEq

/-- The placeholder credentials rejected by `createShipment`. -/
def placeholderLogin : String := "fill in your login here"

/-- The placeholder password rejected by `createShipment`. -/
def placeholderPassword : String := "fill in your password here"

/-- Inputs of one `createShipment` call.  The three zod schema parses live
in an external module, so only their outcomes are modelled (`…Valid`);
`responseError` abstracts whether the parsed HTTP response's
`statusListField` contains an error-level entry. -/
structure ShipRequestEnv where
  contextValid : Bool
  shipmentValid : Bool
  outputValid : Bool
  login : String
  password : String
  apiVersion : String
  apiUrl : Option String
  responseError : Option String
deriving DecidableEq

/-- Endpoint selection: an explicit `apiUrl` wins; otherwise `'V1'` picks
the legacy endpoint and anything else the connect API (the code's default
`apiVersion` is `'V2'`). -/
def shipApiUrl (env : ShipRequestEnv) : String :=
  match env.apiUrl with
  | some u => u
  | none =>
      if env.apiVersion = "V1" then "https://api.mondialrelay.com/WebService"
      else "https://connect-api.mondialrelay.com/api/shipment"

/-- Model of `createShipment`: the three schema parses (each throwing on
failure), the placeholder-credential check, XML generation, the single
`axios.post`, and the response status check — in source order.  The first
component is the trace of performed effects, the second the thrown error or
the successful result. -/
def createShipment (env : ShipRequestEnv) : List ShipEffect × Except String Unit :=
  if env.contextValid = false then
    ([ShipEffect.parseContext], Except.error "context schema validation failed")
  else if env.shipmentValid = false then
    ([ShipEffect.parseContext, ShipEffect.parseShipment],
     Except.error "shipment schema validation failed")
  else if env.outputValid = false then
    ([ShipEffect.parseContext, ShipEffect.parseShipment, ShipEffect.parseOutput],
     Except.error "output options schema validation failed")
  else if env.login = placeholderLogin ∨ env.password = placeholderPassword then
    ([ShipEffect.parseContext, ShipEffect.parseShipment, ShipEffect.parseOutput],
     Except.error "Login or Password is missing, please fill them in.")
  else
    let trace := [ShipEffect.parseContext, ShipEffect.parseShipment, ShipEffect.parseOutput,
                  ShipEffect.generateXml, ShipEffect.httpPost (shipApiUrl env)]
    match env.responseError with
    | some m => (trace, Except.error m)
    | none => (trace, Except.ok ())

/-- An environment whose context fails schema validation. -/
def badShipEnv : ShipRequestEnv :=
  { contextValid := false, shipmentValid := true, outputValid := true,
    login := "user", password := "secret", apiVersion := "V2", apiUrl := none,
    responseError := none }

/- ----------------------------------------------------------------- -/
/- Helper lemmas about the string model.                              -/
/- ----------------------------------------------------------------- -/

theorem isWs_space : isWs ' ' = true := by decide

theorem trimLeft_head_not_ws :
    ∀ {l : List Char} {c : Char} {r : List Char}, trimLeft l = c :: r → isWs c = false := by
  intro l
  induction l with
  | nil => intro c r h; simp [trimLeft] at h
  | cons a t ih =>
    intro c r h
    by_cases ha : isWs a = true
    · exact ih (by simpa [trimLeft, ha] using h)
    · have ha' : isWs a = false := by simpa using ha
      rw [trimLeft, ha'] at h
      simp at h
      rcases h with ⟨rfl, -⟩
      exact ha'

theorem trimRight_head :
    ∀ {l : List Char} {c : Char} {r : List Char}, trimRight l = c :: r → ∃ t, l = c :: t := by
  intro l c r h
  cases l with
  | nil => simp [trimRight] at h
  | cons a t =>
    rw [trimRight] at h
    by_cases h1 : trimRight t = []
    · rw [if_pos h1] at h
      by_cases h2 : isWs a = true
      · simp [h2] at h
      · have h2' : isWs a = false := by simpa using h2
        rw [h2'] at h
        simp at h
        exact ⟨t, by rw [h.1]⟩
    · rw [if_neg h1] at h
      exact ⟨t, by rw [(List.cons.injEq _ _ _ _ |>.mp h).1]⟩

theorem trimRight_replicate_ws (n : Nat) : trimRight (List.replicate n ' ') = [] := by
  induction n with
  | zero => rfl
  | succ n ih => simp [List.replicate_succ, trimRight, ih, isWs_space]

theorem trimRight_append_replicate (l : List Char) (n : Nat) :
    trimRight (l ++ List.replicate n ' ') = trimRight l := by
  induction l with
  | nil => simpa using trimRight_replicate_ws n
  | cons c r ih =>
    show trimRight (c :: (r ++ List.replicate n ' ')) = trimRight (c :: r)
    rw [trimRight, trimRight, ih]

theorem trimRight_idem : ∀ l : List Char, trimRight (trimRight l) = trimRight l := by
  intro l
  induction l with
  | nil => rfl
  | cons c r ih =>
    rw [trimRight]
    by_cases h : trimRight r = []
    · rw [if_pos h]
      by_cases hc : isWs c = true
      · simp [hc, trimRight]
      · have hc' : isWs c = false := by simpa using hc
        simp [hc', trimRight]
    · rw [if_neg h, trimRight, ih, if_neg h]

theorem jsTrim_head_not_ws {s : List Char} {c : Char} {r : List Char}
    (h : jsTrim s = c :: r) : isWs c = false := by
  rcases trimRight_head (l := trimLeft s) h with ⟨t, ht⟩
  exact trimLeft_head_not_ws ht

theorem jsTrim_trimRight_self {s : List Char} : trimRight (jsTrim s) = jsTrim s := by
  unfold jsTrim
  exact trimRight_idem (trimLeft s)

theorem jsTrim_pad {s : List Char} {c : Char} {r : List Char}
    (h : jsTrim s = c :: r) (n : Nat) :
    jsTrim (jsTrim s ++ List.replicate n ' ') = jsTrim s := by
  have hc : isWs c = false := jsTrim_head_not_ws h
  have hTR : trimRight (jsTrim s) = jsTrim s := jsTrim_trimRight_self
  calc jsTrim (jsTrim s ++ List.replicate n ' ')
      = trimRight (trimLeft (jsTrim s ++ List.replicate n ' ')) := rfl
    _ = trimRight (jsTrim s ++ List.replicate n ' ') := by
        rw [h]
        show trimRight (trimLeft (c :: (r ++ List.replicate n ' ')))
              = trimRight (c :: r ++ List.replicate n ' ')
        rw [trimLeft, hc]
        simp
    _ = trimRight (jsTrim s) := trimRight_append_replicate _ n
    _ = jsTrim s := hTR

theorem padEnd_length {s : List Char} {n : Nat} (h : s.length ≤ n) (c : Char) :
    (padEnd s n c).length = n := by
  simp [padEnd]
  omega

theorem jsTrim_nil : jsTrim ([] : List Char) = [] := rfl

/- ----------------------------------------------------------------- -/
/- C4 / C5: brand-identifier normalization.                           -/
/- ----------------------------------------------------------------- -/

/-- C4: for every brand-identifier string whose trimmed length is between
1 and 8, `normalizeBrandId` returns exactly the trimmed input right-padded
with spaces to exactly 8 characters; for trimmed length greater than 8 it
throws the identifier-too-long error; for empty or blank input it throws an
error whose cause is an empty identifier. -/
theorem c4_normalizeBrandId_correct (s : List Char) :
    (1 ≤ (jsTrim s).length → (jsTrim s).length ≤ 8 →
      normalizeBrandId s = Except.ok (jsTrim s ++ List.replicate (8 - (jsTrim s).length) ' ')
      ∧ (jsTrim s ++ List.replicate (8 - (jsTrim s).length) ' ').length = 8)
    ∧ (8 < (jsTrim s).length →
      normalizeBrandId s = Except.error (BrandIdError.tooLong (jsTrim s).length))
    ∧ ((jsTrim s).length = 0 →
      ∃ e, normalizeBrandId s = Except.error e ∧ e.isEmptyIdentifier = true) := by
  refine ⟨?_, ?_, ?_⟩
  · intro h1 h2
    have hs : ¬ s = [] := by
      intro he
      rw [he, jsTrim_nil] at h1
      simp at h1
    constructor
    · unfold normalizeBrandId
      rw [if_neg hs, if_neg (by omega), if_neg (by omega)]
      rfl
    · have := padEnd_length (s := jsTrim s) (n := 8) h2 ' '
      simpa [padEnd] using this
  · intro h
    have hs : ¬ s = [] := by
      intro he
      rw [he, jsTrim_nil] at h
      simp at h
    unfold normalizeBrandId
    rw [if_neg hs, if_pos h]
  · intro h
    by_cases hs : s = []
    · exact ⟨BrandIdError.required, by rw [normalizeBrandId, if_pos hs], rfl⟩
    · refine ⟨BrandIdError.empty, ?_, rfl⟩
      unfold normalizeBrandId
      rw [if_neg hs, if_neg (by omega), if_pos h]

/-- Closed witness for C4 at the spec's concrete scenario inputs
`"BDTEST"`, `"TOOLONGID"` and `""`. -/
theorem c4_normalizeBrandId_correct_witness :
    normalizeBrandId ("BDTEST".toList)
        = Except.ok (jsTrim ("BDTEST".toList)
            ++ List.replicate (8 - (jsTrim ("BDTEST".toList)).length) ' ')
    ∧ normalizeBrandId ("TOOLONGID".toList)
        = Except.error (BrandIdError.tooLong (jsTrim ("TOOLONGID".toList)).length)
    ∧ ∃ e, normalizeBrandId ("".toList) = Except.error e ∧ e.isEmptyIdentifier = true :=
  ⟨((c4_normalizeBrandId_correct ("BDTEST".toList)).1 (by decide) (by decide)).1,
   (c4_normalizeBrandId_correct ("TOOLONGID".toList)).2.1 (by decide),
   (c4_normalizeBrandId_correct ("".toList)).2.2 (by decide)⟩

/-- C5: brand-identifier normalization is idempotent — whenever
`normalizeBrandId x` succeeds with value `t`, normalizing `t` again
succeeds with the same value. -/
theorem c5_normalizeBrandId_idempotent (x t : List Char)
    (h : normalizeBrandId x = Except.ok t) : normalizeBrandId t = Except.ok t := by
  unfold normalizeBrandId at h
  split_ifs at h with h1 h2 h3
  have ht : t = jsTrim x ++ List.replicate (8 - (jsTrim x).length) ' ' := by
    have := h
    simp [padEnd] at this
    exact this.symm
  have hlen1 : 1 ≤ (jsTrim x).length := by omega
  have hne : jsTrim x ≠ [] := by
    intro he
    rw [he] at hlen1
    simp at hlen1
  rcases List.exists_cons_of_ne_nil hne with ⟨c, r, hcr⟩
  have htrim : jsTrim t = jsTrim x := by
    rw [ht]
    exact jsTrim_pad hcr _
  have htne : ¬ t = [] := by
    intro he
    rw [ht, hcr] at he
    simp at he
  unfold normalizeBrandId
  rw [if_neg htne, htrim, if_neg h2, if_neg h3]
  rw [ht]
  rfl

/-- Closed witness for C5: renormalizing the normalized `"BDTEST"` yields
the same 8-character value. -/
theorem c5_normalizeBrandId_idempotent_witness :
    normalizeBrandId ("BDTEST  ".toList) = Except.ok ("BDTEST  ".toList) :=
  c5_normalizeBrandId_idempotent ("BDTEST".toList) ("BDTEST  ".toList) rfl

/- ----------------------------------------------------------------- -/
/- Helper lemmas about the loader machine.                            -/
/- ----------------------------------------------------------------- -/

theorem runLoader_append (s : LoaderState) (es fs : List LoaderEv) :
    runLoader s (es ++ fs) = runLoader (runLoader s es) fs := by
  induction es generalizing s with
  | nil => rfl
  | cons e es ih => simp [runLoader, ih]

theorem runStarts (n : Nat) :
    runLoader initLoader (startEvents n)
      = { scriptsLoaded := false, jqueryPresent := false, appended := jqueryAppends n,
          pending := jqueryAppends n, resolved := [], rejected := [] } := by
  induction n with
  | zero => rfl
  | succ n ih =>
    have h1 : startEvents (n + 1) = startEvents n ++ [LoaderEv.start n] := by
      simp [startEvents, List.range_succ]
    have h2 : jqueryAppends (n + 1) = jqueryAppends n ++ [(n, ScriptKind.jquery)] := by
      simp [jqueryAppends, List.range_succ]
    rw [h1, runLoader_append, ih, h2]
    simp [runLoader, loaderStep, loadScriptsCall, loadMRWidget, appendScript]

theorem jqueryPresent_loadMRWidget (i : Nat) (s : LoaderState) :
    (loadMRWidget i s).jqueryPresent = s.jqueryPresent := by
  unfold loadMRWidget
  split_ifs <;> simp [resolveCall, appendScript]

theorem jqueryPresent_loadScriptsCall (i : Nat) (s : LoaderState) :
    (loadScriptsCall i s).jqueryPresent = s.jqueryPresent := by
  unfold loadScriptsCall
  split_ifs <;> simp [resolveCall, appendScript, jqueryPresent_loadMRWidget]

theorem jqueryPresent_fireFail (i : Nat) (k : ScriptKind) (s : LoaderState) :
    (fireFail i k s).jqueryPresent = s.jqueryPresent := by
  unfold fireFail
  split_ifs <;> simp [rejectCall]

theorem mrAppended_appendScript (i : Nat) (k : ScriptKind) (s : LoaderState) :
    mrAppended (appendScript i k s) = (mrAppended s || decide (k = ScriptKind.mrwidget)) := by
  simp [mrAppended, appendScript]

theorem mrAppended_loadMRWidget_true (i : Nat) (s : LoaderState)
    (hjq : s.jqueryPresent = true) : (loadMRWidget i s).jqueryPresent = true := by
  rw [jqueryPresent_loadMRWidget]
  exact hjq

theorem loaderStep_inv (s : LoaderState) (e : LoaderEv)
    (hinv : mrAppended s = true → s.jqueryPresent = true) :
    mrAppended (loaderStep s e) = true → (loaderStep s e).jqueryPresent = true := by
  cases e with
  | start i =>
    show mrAppended (loadScriptsCall i s) = true → (loadScriptsCall i s).jqueryPresent = true
    unfold loadScriptsCall
    split_ifs with h1 h2
    · intro h
      simp [resolveCall] at h ⊢
      exact hinv h
    · intro _
      exact mrAppended_loadMRWidget_true i s h2
    · intro h
      rw [mrAppended_appendScript] at h
      simp at h
      simp [appendScript]
      exact hinv h
  | load i k =>
    show mrAppended (fireLoad i k s) = true → (fireLoad i k s).jqueryPresent = true
    unfold fireLoad
    split_ifs with hmem
    · cases k with
      | jquery =>
        intro _
        exact mrAppended_loadMRWidget_true i _ (by simp)
      | mrwidget =>
        intro h
        simp [resolveCall] at h ⊢
        exact hinv h
    · exact hinv
  | fail i k =>
    show mrAppended (fireFail i k s) = true → (fireFail i k s).jqueryPresent = true
    unfold fireFail
    split_ifs with hmem
    · intro h
      simp [rejectCall] at h ⊢
      exact hinv h
    · exact hinv

theorem jquery_new_only_by_load (s : LoaderState) (e : LoaderEv)
    (h : (loaderStep s e).jqueryPresent = true) :
    s.jqueryPresent = true ∨ ∃ j, e = LoaderEv.load j ScriptKind.jquery := by
  cases e with
  | start i =>
    left
    rw [← jqueryPresent_loadScriptsCall i s]
    exact h
  | load i k =>
    cases k with
    | jquery => exact Or.inr ⟨i, rfl⟩
    | mrwidget =>
      left
      revert h
      show (fireLoad i ScriptKind.mrwidget s).jqueryPresent = true → s.jqueryPresent = true
      unfold fireLoad
      split_ifs <;> simp [resolveCall]
  | fail i k =>
    left
    rw [← jqueryPresent_fireFail i k s]
    exact h

theorem c7_aux : ∀ (es : List LoaderEv) (s : LoaderState),
    (mrAppended s = true → s.jqueryPresent = true) →
    s.jqueryPresent = false →
    mrAppended (runLoader s es) = true →
    ∃ j, LoaderEv.load j ScriptKind.jquery ∈ es := by
  intro es
  induction es with
  | nil =>
    intro s hinv hjq h
    rw [runLoader] at h
    rw [hinv h] at hjq
    simp at hjq
  | cons e es ih =>
    intro s hinv hjq h
    by_cases hnew : (loaderStep s e).jqueryPresent = true
    · rcases jquery_new_only_by_load s e hnew with hold | ⟨j, rfl⟩
      · rw [hold] at hjq
        simp at hjq
      · exact ⟨j, List.mem_cons_self _ _⟩
    · have hstep := loaderStep_inv s e hinv
      have h' : mrAppended (runLoader (loaderStep s e) es) = true := by
        simpa [runLoader] using h
      rcases ih (loaderStep s e) hstep (by simpa using hnew) h' with ⟨j, hj⟩
      exact ⟨j, List.mem_cons_of_mem _ hj⟩

/- ----------------------------------------------------------------- -/
/- C1: script-load side effects under concurrent mounts.              -/
/- ----------------------------------------------------------------- -/

/-- C1 counterexample: two mounts call `loadScripts` before any resource
has finished loading, every script load then succeeds, and both calls
resolve — yet the jQuery script element is appended twice and the Mondial
Relay widget script element is appended twice.  The load side effect does
not occur at most once per process lifetime on the success path, and the
two calls settle independently, each through its own script elements. -/
theorem c1_counterexample :
    (runLoader initLoader c1Trace).resolved = [0, 1]
    ∧ (runLoader initLoader c1Trace).rejected = []
    ∧ (runLoader initLoader c1Trace).appended
        = [(0, ScriptKind.jquery), (1, ScriptKind.jquery),
           (0, ScriptKind.mrwidget), (1, ScriptKind.mrwidget)]
    ∧ ((runLoader initLoader c1Trace).appended.filter
        (fun e => decide (e.2 = ScriptKind.jquery))).length = 2 := by
  decide

/-- C1 amended: a `loadScripts` call that starts after a successful load
has completed (both global flags set) resolves immediately with no new load
side effect; but `N` calls that all start before any resource finishes each
append their own jQuery script element — the side effect occurs once per
call, not once per process — and the calls settle independently. -/
theorem c1_amended_loadScripts :
    (∀ (s : LoaderState) (i : Nat), s.scriptsLoaded = true → s.jqueryPresent = true →
        loadScriptsCall i s = resolveCall i s)
    ∧ (∀ n : Nat, (runLoader initLoader (startEvents n)).appended = jqueryAppends n) := by
  constructor
  · intro s i h1 h2
    simp [loadScriptsCall, h1, h2]
  · intro n
    rw [runStarts]

/-- Closed witness for the amended C1: a call against the fully-loaded
state resolves with no append, and two interleaved starts append two
jQuery scripts. -/
theorem c1_amended_loadScripts_witness :
    loadScriptsCall 0
        { scriptsLoaded := true, jqueryPresent := true, appended := [], pending := [],
          resolved := [], rejected := [] }
      = resolveCall 0
        { scriptsLoaded := true, jqueryPresent := true, appended := [], pending := [],
          resolved := [], rejected := [] }
    ∧ (runLoader initLoader (startEvents 2)).appended = jqueryAppends 2 :=
  ⟨c1_amended_loadScripts.1 _ 0 rfl rfl, c1_amended_loadScripts.2 2⟩

/- ----------------------------------------------------------------- -/
/- C7: dependency order of the two script loads.                      -/
/- ----------------------------------------------------------------- -/

/-- C7 counterexample: after two mounts start and the first mount's jQuery
script finishes loading, the second mount's jQuery script and the first
mount's Mondial Relay widget script are both in flight at the same time —
the two resources' loads are not mutually exclusive in flight. -/
theorem c7_counterexample :
    (runLoader initLoader c7SimTrace).pending
        = [(1, ScriptKind.jquery), (0, ScriptKind.mrwidget)]
    ∧ (1, ScriptKind.jquery) ∈ (runLoader initLoader c7SimTrace).pending
    ∧ (0, ScriptKind.mrwidget) ∈ (runLoader initLoader c7SimTrace).pending := by
  decide

/-- C7 amended: in every execution the Mondial Relay widget script never
begins loading until some jQuery script load has signalled success — any
event schedule after which the widget script has been appended contains a
fired jQuery `onload` event — but loads of the two resources can be in
flight simultaneously when calls interleave. -/
theorem c7_amended_order (es : List LoaderEv)
    (h : mrAppended (runLoader initLoader es) = true) :
    ∃ j, LoaderEv.load j ScriptKind.jquery ∈ es :=
  c7_aux es initLoader (fun hm => absurd hm (by decide)) rfl h

/-- Closed witness for the amended C7: in the schedule where mount 0 starts
and its jQuery script then loads, the widget script has been appended, and
the schedule indeed contains a fired jQuery load. -/
theorem c7_amended_order_witness :
    ∃ j, LoaderEv.load j ScriptKind.jquery
        ∈ [LoaderEv.start 0, LoaderEv.load 0 ScriptKind.jquery] :=
  c7_amended_order [LoaderEv.start 0, LoaderEv.load 0 ScriptKind.jquery] (by decide)

/- ----------------------------------------------------------------- -/
/- Helper lemmas about the attach path.                               -/
/- ----------------------------------------------------------------- -/

theorem clearZone_widgetAttachedFlag (w : DomWindow) :
    (clearZoneIfAttached w).widgetAttachedFlag = w.widgetAttachedFlag := by
  unfold clearZoneIfAttached
  split_ifs <;> simp

theorem clearZone_scriptsLoaded (w : DomWindow) :
    (clearZoneIfAttached w).scriptsLoaded = w.scriptsLoaded := by
  unfold clearZoneIfAttached
  split_ifs <;> simp

/- ----------------------------------------------------------------- -/
/- C2: unmount cleanup.                                               -/
/- ----------------------------------------------------------------- -/

/-- C2 counterexample: session 0 attaches successfully (the zone's content
is session 0's), and then session 1 — which never owned the attachment —
runs the unmount cleanup: the zone's content written by session 0 is
cleared anyway.  Cleanup is not gated on ownership. -/
theorem c2_counterexample :
    ((initWidget 0 bdProps none readyWindow).1.zoneOwner = some 0
    ∧ (initWidget 0 bdProps none readyWindow).1.zoneContent ≠ ""
    ∧ (0 : Nat) ≠ 1
    ∧ (unmountCleanup 1 (initWidget 0 bdProps none readyWindow).1 freshReadySession).1.zoneContent
        = "") := by
  decide

/-- C2 amended: the unmount cleanup unconditionally clears the DOM
target's content whenever the target element exists, regardless of which
session owns the current attachment (so it can clear content attached by a
different session); it resets only the per-session `widgetInitialized` ref,
and it leaves both `window.__MR_WIDGET_SCRIPTS_LOADED__` (the cached
script-load result) and `window.__MR_WIDGET_INITIALIZED__` unchanged. -/
theorem c2_amended_cleanup (sid : Nat) (w : DomWindow) (s : MountSession) :
    (unmountCleanup sid w s).1.scriptsLoaded = w.scriptsLoaded
    ∧ (unmountCleanup sid w s).1.widgetAttachedFlag = w.widgetAttachedFlag
    ∧ (unmountCleanup sid w s).1.jquery = w.jquery
    ∧ (w.zonePresent = true → (unmountCleanup sid w s).1.zoneContent = "")
    ∧ (w.zonePresent = false → (unmountCleanup sid w s).1 = w)
    ∧ (unmountCleanup sid w s).2 = { s with widgetInitialized := false } := by
  unfold unmountCleanup
  split_ifs with h <;> simp_all

/-- Closed witness for the amended C2 at a concrete window owned by
another session. -/
theorem c2_amended_cleanup_witness :
    (unmountCleanup 1 (initWidget 0 bdProps none readyWindow).1 freshReadySession).1.scriptsLoaded
        = (initWidget 0 bdProps none readyWindow).1.scriptsLoaded
    ∧ (unmountCleanup 1 (initWidget 0 bdProps none readyWindow).1 freshReadySession).1.zoneContent
        = "" :=
  ⟨(c2_amended_cleanup 1 (initWidget 0 bdProps none readyWindow).1 freshReadySession).1,
   (c2_amended_cleanup 1 (initWidget 0 bdProps none readyWindow).1 freshReadySession).2.2.2.1
     (by decide)⟩

/- ----------------------------------------------------------------- -/
/- C3: the `widgetInitialized` re-entrancy guard.                     -/
/- ----------------------------------------------------------------- -/

/-- C3 counterexample: for a single live session, a prop change makes React
run the effect's cleanup and then the effect again; the cleanup resets the
`widgetInitialized` ref (the flag is not monotonic over the session's
lifetime) and the re-run begins the resource-loading/attach chain a second
time for the same mount. -/
theorem c3_counterexample :
    (effectRun freshReadySession).widgetInitialized = true
    ∧ (effectRun freshReadySession).chainStarts = 1
    ∧ (effectCleanup (effectRun freshReadySession)).widgetInitialized = false
    ∧ (effectRun (effectCleanup (effectRun freshReadySession))).chainStarts = 2 := by
  decide

/-- C3 amended: the `widgetInitialized` ref guards re-entry only within a
single effect activation — re-running the effect body while the flag is set
is a no-op, so the chain begins at most once per activation — but the
effect's cleanup, which React runs before every re-execution on a
dependency (prop) change and on unmount, resets the flag, so each prop
change begins the chain anew. -/
theorem c3_amended_guard (s : MountSession) :
    effectRun (effectRun s) = effectRun s
    ∧ (s.widgetInitialized = true → effectRun s = s)
    ∧ (effectCleanup s).widgetInitialized = false := by
  refine ⟨?_, ?_, rfl⟩
  · by_cases h : (!s.isReady || s.widgetInitialized || s.error.isSome) = true
    · simp [effectRun, h]
    · have h' : (!s.isReady || s.widgetInitialized || s.error.isSome) = false := by
        simpa using h
      simp [effectRun, h']
  · intro h
    simp [effectRun, h]

/-- Closed witness for the amended C3 at the already-initialized session. -/
theorem c3_amended_guard_witness :
    effectRun (effectRun freshReadySession) = effectRun freshReadySession
    ∧ effectRun { freshReadySession with widgetInitialized := true }
        = { freshReadySession with widgetInitialized := true } :=
  ⟨(c3_amended_guard freshReadySession).1,
   (c3_amended_guard { freshReadySession with widgetInitialized := true }).2.1 rfl⟩

/- ----------------------------------------------------------------- -/
/- C6: invalid delivery mode.                                         -/
/- ----------------------------------------------------------------- -/

/-- C6: evaluating the code at the failing input `deliveryMode = "ZZZ"`.
`validateDeliveryMode` emits its warning (whose text promises a default of
`"24R"`) and never fails, but `initWidget` passes `ColLivMod: "ZZZ"` —
the raw prop — to `MR_ParcelShopPicker`: the effective delivery mode does
not equal the default `"24R"`.  The substitution announced by the warning
never happens. -/
theorem c6_deliveryMode_passthrough :
    validateDeliveryMode (some "ZZZ") = true
    ∧ (initWidget 0 zzzProps none readyWindow).2
        = InitOutcome.attached (buildWidgetConfig zzzProps ("BDTEST  ".toList))
    ∧ (buildWidgetConfig zzzProps ("BDTEST  ".toList)).colLivMod = "ZZZ"
    ∧ ¬ (buildWidgetConfig zzzProps ("BDTEST  ".toList)).colLivMod = "24R" := by
  decide

/- ----------------------------------------------------------------- -/
/- C8: missing global entry point at attach time.                     -/
/- ----------------------------------------------------------------- -/

/-- C8 counterexample: with resources marked loaded but `window.$` not
callable, `initWidget` logs to the console and returns normally — no error
is thrown and the session's error state stays `none`, so the failure never
reaches the session's Error phase.  There is no `EntryPointMissing` error. -/
theorem c8_counterexample :
    noJqWindow.scriptsLoaded = true
    ∧ (initWidget 0 bdProps none noJqWindow).2 = InitOutcome.skippedNoJQuery
    ∧ (initializeWidgetAfterLoad 0 bdProps none noJqWindow freshReadySession).2.error = none := by
  decide

/-- C8 amended: when `window.$` is not callable at attach time,
`initWidget` only logs to the console and returns without attaching; no
exception is raised, the window is left unchanged, and the session does not
enter the Error phase. -/
theorem c8_amended_skip (sid : Nat) (p : WidgetProps) (pf : Option String)
    (w : DomWindow) (s : MountSession) (h : w.jquery = false) :
    initWidget sid p pf w = (w, InitOutcome.skippedNoJQuery)
    ∧ initializeWidgetAfterLoad sid p pf w s = (w, s) := by
  have h1 : initWidget sid p pf w = (w, InitOutcome.skippedNoJQuery) := by
    simp [initWidget, h]
  exact ⟨h1, by simp [initializeWidgetAfterLoad, h1]⟩

/-- Closed witness for the amended C8. -/
theorem c8_amended_skip_witness :
    initWidget 0 bdProps none noJqWindow = (noJqWindow, InitOutcome.skippedNoJQuery)
    ∧ initializeWidgetAfterLoad 0 bdProps none noJqWindow freshReadySession
        = (noJqWindow, freshReadySession) :=
  c8_amended_skip 0 bdProps none noJqWindow freshReadySession rfl

/- ----------------------------------------------------------------- -/
/- C9: failed attach propagates and leaves the shared flag alone.     -/
/- ----------------------------------------------------------------- -/

/-- C9: when the underlying `MR_ParcelShopPicker` call throws, the error is
rethrown to `initWidget`'s caller and `window.__MR_WIDGET_INITIALIZED__`
keeps its prior value (the assignment setting it comes after the picker
call, inside the same `try` block). -/
theorem c9_initWidget_error_propagation (sid : Nat) (p : WidgetProps) (m : String)
    (w : DomWindow) (nb : List Char) (hjq : w.jquery = true)
    (hnb : normalizeBrandId p.brandIdAPI = Except.ok nb) :
    (initWidget sid p (some m) w).2 = InitOutcome.threw (InitError.picker m)
    ∧ (initWidget sid p (some m) w).1.widgetAttachedFlag = w.widgetAttachedFlag
    ∧ (initWidget sid p (some m) w).1.scriptsLoaded = w.scriptsLoaded := by
  have h1 : initWidget sid p (some m) w
      = (clearZoneIfAttached w, InitOutcome.threw (InitError.picker m)) := by
    simp [initWidget, hjq, hnb]
  rw [h1]
  exact ⟨rfl, clearZone_widgetAttachedFlag w, clearZone_scriptsLoaded w⟩

/-- Closed witness for C9: a throwing picker against the ready window. -/
theorem c9_initWidget_error_propagation_witness :
    (initWidget 0 bdProps (some "widget library crashed") readyWindow).2
        = InitOutcome.threw (InitError.picker "widget library crashed")
    ∧ (initWidget 0 bdProps (some "widget library crashed") readyWindow).1.widgetAttachedFlag
        = readyWindow.widgetAttachedFlag
    ∧ (initWidget 0 bdProps (some "widget library crashed") readyWindow).1.scriptsLoaded
        = readyWindow.scriptsLoaded :=
  c9_initWidget_error_propagation 0 bdProps "widget library crashed" readyWindow
    ("BDTEST  ".toList) rfl rfl

/- ----------------------------------------------------------------- -/
/- C10: createShipment validates before any network effect.           -/
/- ----------------------------------------------------------------- -/

/-- C10: for every `createShipment` call, if any of the three schema
validations fails or the Login/Password placeholder check trips, the call
throws and the effect trace contains no HTTP request: validation happens
strictly before any network side effect. -/
theorem c10_createShipment_validation_first (env : ShipRequestEnv)
    (h : env.contextValid = false ∨ env.shipmentValid = false ∨ env.outputValid = false
         ∨ env.login = placeholderLogin ∨ env.password = placeholderPassword) :
    (∃ msg, (createShipment env).2 = Except.error msg)
    ∧ ∀ u, ShipEffect.httpPost u ∉ (createShipment env).1 := by
  unfold createShipment
  split_ifs with h1 h2 h3 h4
  · exact ⟨⟨_, rfl⟩, by intro u hu; simp at hu⟩
  · exact ⟨⟨_, rfl⟩, by intro u hu; simp at hu⟩
  · exact ⟨⟨_, rfl⟩, by intro u hu; simp at hu⟩
  · exact ⟨⟨_, rfl⟩, by intro u hu; simp at hu⟩
  · rcases h with hc | hs | ho | hl | hp
    · exact absurd hc h1
    · exact absurd hs h2
    · exact absurd ho h3
    · exact absurd (Or.inl hl) h4
    · exact absurd (Or.inr hp) h4

/-- Closed witness for C10: a failing context validation produces a thrown
error and a trace without any `httpPost`. -/
theorem c10_createShipment_validation_first_witness :
    (∃ msg, (createShipment badShipEnv).2 = Except.error msg)
    ∧ ∀ u, ShipEffect.httpPost u ∉ (createShipment badShipEnv).1 :=
  c10_createShipment_validation_first badShipEnv (Or.inl rfl)

end MondialRelay
